import Mathlib

/-!
# Verification of the GitHub security scanner pipeline

Shallow embedding of `src/github-security-scanner.py` (single-file Python
program).  Pure helpers become Lean functions on `String` / `List Char`;
Python exceptions become `Except`; values read from JSON become an inductive
`JVal`; external effects of the per-candidate orchestration loop (metadata
fetch, git clone, detector subprocess) are recorded as an explicit event
trace.  String processing is done on `List Char` with structural recursion so
that every definition evaluates inside the kernel.
-/

namespace GhScan

/-! ## JSON values (results of Python `json.load`)

Integral numbers only: the cache file written by the program stores a string
list, a timestamp string and an integer counter. -/

inductive JVal where
  | jnull
  | jbool (b : Bool)
  | jnum (n : Int)
  | jstr (s : String)
  | jarr (xs : List JVal)
  | jobj (fields : List (String × JVal))

/-- Python `x in set_of_values` where `x` is a string and the set may hold
arbitrary (hashable) JSON values: equality against a non-string is `False`. -/
def jmemStr (x : String) : List JVal → Bool
  | [] => false
  | JVal.jstr s :: rest => s == x || jmemStr x rest
  | _ :: rest => jmemStr x rest

/-- Python `dict.get(key, default)`; for duplicated keys `json.load` keeps the
last binding, hence the reversed lookup. -/
def dictGet (fields : List (String × JVal)) (key : String) (dflt : JVal) : JVal :=
  match fields.reverse.find? (fun kv => kv.1 == key) with
  | some kv => kv.2
  | none => dflt

/-- Elements a Python `set` can hold (lists and dicts are unhashable). -/
def jhashable : JVal → Bool
  | JVal.jarr _ => false
  | JVal.jobj _ => false
  | _ => true

/-- Python `set(x)`: iterates lists, strings (characters) and dicts (keys);
raises `TypeError` on non-iterables and on unhashable elements. -/
def pySet : JVal → Except Unit (List JVal)
  | JVal.jarr xs => if xs.all jhashable then Except.ok xs else Except.error ()
  | JVal.jstr s => Except.ok (s.toList.map (fun ch => JVal.jstr (String.mk [ch])))
  | JVal.jobj fields => Except.ok (fields.map (fun kv => JVal.jstr kv.1))
  | _ => Except.error ()

/-- Python `v + 1` on a JSON value: defined on ints and bools
(`True + 1 == 2`), a `TypeError` otherwise. -/
def pyAddOne : JVal → Except Unit Int
  | JVal.jnum n => Except.ok (n + 1)
  | JVal.jbool b => Except.ok ((if b then 1 else 0) + 1)
  | _ => Except.error ()

/-! ## Character-level string helpers (kernel-evaluable) -/

/-- `str.strip()` on a character list. -/
def trimChars (s : List Char) : List Char :=
  ((s.dropWhile Char.isWhitespace).reverse.dropWhile Char.isWhitespace).reverse

/-- `str.strip()`. -/
def pyStrip (s : String) : String :=
  String.mk (trimChars s.toList)

def isPrefixOfChars : List Char → List Char → Bool
  | [], _ => true
  | _ :: _, [] => false
  | a :: as, b :: bs => a == b && isPrefixOfChars as bs

/-- The suffix after the first occurrence of `pat` (nonempty) in `s`,
`none` when `pat` does not occur: the semantics of a leading literal in
`re.search`. -/
def afterFirst (pat : List Char) : List Char → Option (List Char)
  | [] => none
  | c :: cs =>
      if isPrefixOfChars pat (c :: cs) then some ((c :: cs).drop pat.length)
      else afterFirst pat cs

/-- Accumulate decimal digits; `none` on a non-digit character. -/
def parseDigitsAux : List Char → Nat → Option Nat
  | [], acc => some acc
  | c :: cs, acc =>
      if c.isDigit then parseDigitsAux cs (acc * 10 + (c.toNat - '0'.toNat))
      else none

def parseDigits (cs : List Char) : Option Nat :=
  if cs.isEmpty then none else parseDigitsAux cs 0

/-- Python `int(str)` restricted to decimal literals: optional surrounding
whitespace, optional single sign, at least one digit (digit-grouping
underscores are not modelled).  `None` stands for the `ValueError` path. -/
def pyIntChars : List Char → Option Int
  | raw =>
      match trimChars raw with
      | '-' :: rest => (parseDigits rest).map (fun n => -(n : Int))
      | '+' :: rest => (parseDigits rest).map (fun n => (n : Int))
      | t => (parseDigits t).map (fun n => (n : Int))

/-! ## `get_commit_year` (src lines 149-156)

`int(date_string.split('-')[0])` inside `try/except`: the first segment of a
split on `-` is everything before the first `-` (the whole string when `-`
does not occur); any parse failure yields `None`. -/

def get_commit_year (dateString : String) : Option Int :=
  pyIntChars (dateString.toList.takeWhile (fun c => c != '-'))

/-! ## The scan cache (src lines 158-191)

`load_cache` input: `none` when the cache file does not exist
(`os.path.exists` false), `some (Except.error ())` when opening or
`json.load` raises, `some (Except.ok j)` when the file parses to `j`. -/

structure CacheState where
  repos : List JVal
  lastScan : JVal
  scanCount : JVal

def emptyCacheState : CacheState :=
  { repos := [], lastScan := JVal.jnull, scanCount := JVal.jnum 0 }

/-- The body of the `try` block of `load_cache` after `json.load` succeeded:
`cache_data.get` raises `AttributeError` unless the value is a dict, and
`set(...)` may raise `TypeError`; both are caught by the caller. -/
def loadBody : JVal → Except Unit CacheState
  | JVal.jobj fields =>
      match pySet (dictGet fields "repos" (JVal.jarr [])) with
      | Except.ok rs =>
          Except.ok { repos := rs,
                      lastScan := dictGet fields "last_scan" JVal.jnull,
                      scanCount := dictGet fields "scan_count" (JVal.jnum 0) }
      | Except.error e => Except.error e
  | _ => Except.error ()

def load_cache : Option (Except Unit JVal) → CacheState
  | none => emptyCacheState
  | some (Except.error _) => emptyCacheState
  | some (Except.ok j) =>
      match loadBody j with
      | Except.ok st => st
      | Except.error _ => emptyCacheState

/-- The JSON document `save_cache` writes (src lines 179-191): the repo list
is `list(repos_set)` — the identifiers passed in, nothing unioned in — a
fresh timestamp (`now`, standing for `datetime.now()`), and the previous
counter plus one.  `Except.error` models the caught exception path (for
instance a non-numeric stored counter). -/

structure SavedCache where
  repos : List String
  lastScan : String
  scanCount : Int
deriving DecidableEq

def save_cache (now : String) (reposSet : List String) (previous : CacheState) :
    Except Unit SavedCache :=
  match pyAddOne previous.scanCount with
  | Except.ok n => Except.ok { repos := reposSet, lastScan := now, scanCount := n }
  | Except.error e => Except.error e

/-! ## The trufflehog output parser (src lines 564-600)

Each line is stripped, then matched against four regexes whose patterns all
start with a literal label, so a match anchors at the first occurrence of the
label in the line.  `labelAfter` models `re.search(r"Label:\s*(.*)", line)`
followed by `.group(1).strip()` (the leading `\s*` plus the final `.strip()`
amount to stripping the suffix after the label); `digitsAfter` models
`re.search(r"Line Number:\s*(\d+)", line)` at the first label occurrence. -/

def labelAfter (label line : String) : Option String :=
  (afterFirst label.toList line.toList).map (fun rest => String.mk (trimChars rest))

def digitsAfter (label line : String) : Option String :=
  match afterFirst label.toList line.toList with
  | none => none
  | some rest =>
      let ds := (rest.dropWhile Char.isWhitespace).takeWhile Char.isDigit
      if ds.isEmpty then none else some (String.mk ds)

/-- The three accumulated parser fields `current_detector`, `current_file`,
`current_line` (src lines 565-567). -/
structure PState where
  detector : String
  file : String
  lineNo : String
deriving DecidableEq

/-- One row of `results_list` for a code-search finding (the three issue
fields are always empty on this path and are omitted). -/
structure Finding where
  keyword : String
  link : String
  commiter : String
  date : String
  detector : String
  filePath : String
  lineNumber : String
  raw : String
deriving DecidableEq

/-- The field updates of one loop iteration (src lines 576-581): each label
match overwrites its accumulated field; nothing is ever reset. -/
def updFields (st : PState) (l : String) : PState :=
  let st1 := match labelAfter "Detector Type:" l with
    | some v => { st with detector := v }
    | none => st
  let st2 := match labelAfter "Path:" l with
    | some v => { st1 with file := v }
    | none => st1
  match digitsAfter "Line Number:" l with
  | some v => { st2 with lineNo := v }
  | none => st2

/-- One iteration of the parsing loop (src lines 569-600): strip the line,
apply the field updates, and on a raw-result match with non-empty captured
text emit one `Finding` from the current accumulated fields. -/
def parseLine (keyword url commiter date : String) (st : PState) (rawLine : String) :
    PState × List Finding :=
  let l := pyStrip rawLine
  let st2 := updFields st l
  match labelAfter "Raw result:" l with
  | some raw =>
      if raw = "" then (st2, [])
      else (st2, [{ keyword := keyword, link := url, commiter := commiter, date := date,
                    detector := st2.detector, filePath := st2.file,
                    lineNumber := st2.lineNo, raw := raw }])
  | none => (st2, [])

def parseAll (keyword url commiter date : String) (st : PState) :
    List String → PState × List Finding
  | [] => (st, [])
  | l :: ls =>
      let p1 := parseLine keyword url commiter date st l
      let p2 := parseAll keyword url commiter date p1.1 ls
      (p2.1, p1.2 ++ p2.2)

/-- The whole parsing pass over the detector output of one repository; the
accumulated fields start empty (src lines 565-567). -/
def runDetectorOutput (keyword url commiter date : String) (lines : List String) :
    List Finding :=
  (parseAll keyword url commiter date { detector := "", file := "", lineNo := "" } lines).2

/-! ## The per-candidate orchestration loop (src lines 479-608)

One candidate bundles the values the external world supplies for one search
hit: the repository URL and full name, `get_repo_size` result
(`(size, private)`, both `None` on a failed fetch), `get_last_commit` result,
whether `git clone` succeeds, and the detector output
(`none` when `subprocess.run` raises, caught at src line 604). -/

structure Candidate where
  url : String
  fullName : String
  keyword : String
  sizeKb : Option Int
  isPrivate : Option Bool
  commiter : String
  commitDate : String
  cloneOk : Bool
  detectOutput : Option (List String)

/-- One row of `public_list` / the all-candidates report; `isNew` models the
Status column (`"NEW"` versus `"Existing"`). -/
structure PublicRecord where
  link : String
  author : String
  date : String
  keyword : String
  isNew : Bool
deriving DecidableEq

/-- One row of `new_repos_list` (no Status column). -/
structure NewRepoRecord where
  link : String
  author : String
  date : String
  keyword : String
deriving DecidableEq

/-- The orchestrator's cross-candidate mutable state (src lines 439-451). -/
structure OrchState where
  scannedCache : List String
  previousRepos : List JVal
  publicList : List PublicRecord
  resultsList : List Finding
  newReposList : List NewRepoRecord
  totalCount : Nat
  skippedCount : Nat
  oldCount : Nat
  newCount : Nat
  matchedCount : Nat

def initState (prev : List JVal) : OrchState :=
  { scannedCache := [], previousRepos := prev, publicList := [], resultsList := [],
    newReposList := [], totalCount := 0, skippedCount := 0, oldCount := 0,
    newCount := 0, matchedCount := 0 }

/-- `MAX_SIZE_KB` and `MIN_YEAR` (src lines 48-49). -/
structure Config where
  maxSizeKb : Int
  minYear : Int

/-- External calls and subprocess invocations of one candidate, in program
order. -/
inductive Event where
  | skipDup (url : String)
  | metaFetch (url : String)
  | commitFetch (url : String)
  | cloneCmd (url : String)
  | detectCmd (url : String)
deriving DecidableEq

/-- Python truthiness of `is_private` (`if is_private:`): only `True` is
truthy; `None` and `False` are not. -/
def pyTruthyOptBool : Option Bool → Bool
  | none => false
  | some b => b

/-- `if repo_size_kb and repo_size_kb > MAX_SIZE_KB:` (src line 505): an
unknown (`None`) or zero size is never rejected. -/
def sizeRejected (maxKb : Int) : Option Int → Bool
  | none => false
  | some k => (k != 0) && (k > maxKb)

/-- `if commit_year and commit_year < MIN_YEAR:` (src line 522): an unknown
(`None`) or zero year is never rejected as stale. -/
def yearStale (minYear : Int) : Option Int → Bool
  | none => false
  | some y => (y != 0) && (y < minYear)

/-- Processing of one code-search hit (src lines 479-608): the in-run
seen-set check, new-repo tagging, metadata fetch, privacy / size / staleness
filters, clone, detector invocation and parsing, with the emitted event
trace. -/
def step (cfg : Config) (s : OrchState) (c : Candidate) : OrchState × List Event :=
  let s0 := { s with totalCount := s.totalCount + 1 }
  if c.url ∈ s.scannedCache then
    ({ s0 with skippedCount := s0.skippedCount + 1 }, [Event.skipDup c.url])
  else
    let isNew := !(jmemStr c.url s.previousRepos)
    let s1 := if isNew then { s0 with newCount := s0.newCount + 1 } else s0
    let s2 := { s1 with scannedCache := c.url :: s1.scannedCache }
    if pyTruthyOptBool c.isPrivate then
      (s2, [Event.metaFetch c.url])
    else if sizeRejected cfg.maxSizeKb c.sizeKb then
      ({ s2 with publicList := s2.publicList ++
           [{ link := c.url, author := "", date := "", keyword := c.keyword, isNew := isNew }] },
       [Event.metaFetch c.url])
    else if yearStale cfg.minYear (get_commit_year c.commitDate) then
      ({ s2 with oldCount := s2.oldCount + 1,
                 publicList := s2.publicList ++
                   [{ link := c.url, author := c.commiter, date := c.commitDate,
                      keyword := c.keyword, isNew := isNew }] },
       [Event.metaFetch c.url, Event.commitFetch c.url])
    else if c.cloneOk then
      let found := match c.detectOutput with
        | none => []
        | some lines => runDetectorOutput c.keyword c.url c.commiter c.commitDate lines
      let s3 := { s2 with publicList := s2.publicList ++
          [{ link := c.url, author := c.commiter, date := c.commitDate,
             keyword := c.keyword, isNew := isNew }] }
      let s4 : OrchState := if isNew then
          { s3 with newReposList := s3.newReposList ++
              [{ link := c.url, author := c.commiter, date := c.commitDate,
                 keyword := c.keyword }] }
        else s3
      ({ s4 with resultsList := s4.resultsList ++ found,
                 matchedCount := s4.matchedCount + found.length },
       [Event.metaFetch c.url, Event.commitFetch c.url, Event.cloneCmd c.url,
        Event.detectCmd c.url])
    else
      (s2, [Event.metaFetch c.url, Event.commitFetch c.url, Event.cloneCmd c.url])

/-- The whole run over a list of candidates (the concatenation of all search
hits of all keywords, in order), with the accumulated event trace. -/
def runAll (cfg : Config) (s : OrchState) : List Candidate → OrchState × List Event
  | [] => (s, [])
  | c :: cs =>
      let p1 := step cfg s c
      let p2 := runAll cfg p1.1 cs
      (p2.1, p1.2 ++ p2.2)

/-- Number of detector invocations for a given repository URL in a trace. -/
def countDetect (url : String) : List Event → Nat
  | [] => 0
  | Event.detectCmd u :: es => (if u = url then 1 else 0) + countDetect url es
  | _ :: es => countDetect url es

/-! ## The `KeyboardInterrupt` handler (src lines 754-778)

The actions the handler performs, in order: a warning, a best-effort email
notification when a sender and recipient are configured, and `exit(1)`.
`persistCache` is the action the normal path performs at src line 621; it is
included in the action type so that its absence from the handler is a
statement about the handler. -/

inductive TopAction where
  | warnInterrupted
  | sendInterruptNotice
  | persistCache
  | exitWith (code : Nat)
deriving DecidableEq

def keyboardInterruptHandler (emailConfigured : Bool) : List TopAction :=
  [TopAction.warnInterrupted] ++
    (if emailConfigured then [TopAction.sendInterruptNotice] else []) ++
    [TopAction.exitWith 1]

/-! ## Theorems -/

/-- A cache state as loaded from a well-formed cache file holding one
previously scanned identifier and a counter of 3. -/
def prevCacheA : CacheState :=
  { repos := [JVal.jstr "https://github.com/o/a"], lastScan := JVal.jnull,
    scanCount := JVal.jnum 3 }

/-- Claim C1, counterexample.  The claim says the saved identifier set equals the
union of the previous identifiers and the new ones.  On a previously loaded
state holding `.../o/a`, saving with current-run set `[.../o/b]` writes
exactly `[.../o/b]`: the previous identifier `.../o/a` is dropped, so the
saved set is neither the union nor a superset of the previous set (the run
counter is incremented as claimed). -/
theorem save_cache_drops_previous_identifiers :
    load_cache (some (Except.ok (JVal.jobj
        [("repos", JVal.jarr [JVal.jstr "https://github.com/o/a"]),
         ("scan_count", JVal.jnum 3)]))) = prevCacheA ∧
    prevCacheA.repos = [JVal.jstr "https://github.com/o/a"] ∧
    save_cache "2026-01-02 03:04:05" ["https://github.com/o/b"] prevCacheA =
      Except.ok { repos := ["https://github.com/o/b"],
                  lastScan := "2026-01-02 03:04:05", scanCount := 4 } ∧
    "https://github.com/o/a" ∉ (["https://github.com/o/b"] : List String) :=
  ⟨rfl, rfl, rfl, by decide⟩

/-- Claim C1, amended.  Saving the cache writes a state whose identifier set equals
exactly the set of identifiers seen in the current run (previous identifiers
not seen again are dropped, so the stored set is not in general a superset of
the previous one), with a fresh timestamp and run counter equal to the
previous run counter plus one. -/
theorem save_cache_writes_current_run_identifiers (now : String)
    (reposSet : List String) (previous : CacheState) (n : Int)
    (h : previous.scanCount = JVal.jnum n) :
    save_cache now reposSet previous =
      Except.ok { repos := reposSet, lastScan := now, scanCount := n + 1 } := by
  simp [save_cache, pyAddOne, h]

theorem save_cache_writes_current_run_identifiers_witness :
    save_cache "t" ["https://github.com/o/b"] prevCacheA =
      Except.ok { repos := ["https://github.com/o/b"], lastScan := "t",
                  scanCount := 4 } :=
  save_cache_writes_current_run_identifiers "t" ["https://github.com/o/b"]
    prevCacheA 3 rfl

/-- Claim C8.  Whatever the starting condition of the persisted cache file —
absent (`none`), unreadable or unparsable (`some (Except.error ())`), or
parsed but structurally malformed (`loadBody` raises) — loading never fails
and returns the empty state: no identifiers, no last-scan timestamp, run
counter 0. -/
theorem load_cache_corruption_degrades_to_empty (inp : Option (Except Unit JVal))
    (h : inp = none ∨ inp = some (Except.error ()) ∨
         ∃ j, inp = some (Except.ok j) ∧ loadBody j = Except.error ()) :
    load_cache inp = { repos := [], lastScan := JVal.jnull,
                       scanCount := JVal.jnum 0 } := by
  rcases h with h | h | ⟨j, hj, hb⟩
  · rw [h]; rfl
  · rw [h]; rfl
  · subst hj; simp [load_cache, hb]; rfl

theorem load_cache_corruption_degrades_to_empty_witness :
    load_cache (some (Except.ok (JVal.jarr []))) =
      { repos := [], lastScan := JVal.jnull, scanCount := JVal.jnum 0 } :=
  load_cache_corruption_degrades_to_empty _ (Or.inr (Or.inr ⟨JVal.jarr [], rfl, rfl⟩))

/-- Claim C6.  Extracting the commit year is a total function (the `try/except`
is modelled by the `Option` result, so no input can raise); a string without
a parseable leading year yields `none`, and a candidate with no parseable
year is never rejected by the recency check; a well-formed ISO-8601
timestamp yields its leading year. -/
theorem get_commit_year_no_year_not_stale :
    (∀ (s : String) (minYear : Int), get_commit_year s = none →
       yearStale minYear (get_commit_year s) = false) ∧
    get_commit_year "Unknown" = none ∧
    get_commit_year "2024-01-15T10:30:00Z" = some 2024 := by
  refine ⟨?_, by decide, by decide⟩
  intro s minYear h
  rw [h]
  rfl

theorem get_commit_year_no_year_not_stale_witness :
    yearStale 2024 (get_commit_year "Unknown") = false :=
  get_commit_year_no_year_not_stale.1 "Unknown" 2024 (by decide)

/-- Claim C9, counterexample.  The claim says the interrupt path still attempts to
persist the cache; the interrupt handler performs no cache persistence,
whether or not email notification is configured. -/
theorem interrupt_handler_never_persists_cache :
    TopAction.persistCache ∉ keyboardInterruptHandler true ∧
    TopAction.persistCache ∉ keyboardInterruptHandler false := by decide

/-- Claim C9, amended.  When the run is cancelled by a user interrupt, the program
exits with status 1 (non-zero) — after a warning and, when configured, a
best-effort email notification — but makes no attempt to persist the cache
state accumulated so far. -/
theorem interrupt_exits_one_without_persisting (emailConfigured : Bool) :
    TopAction.exitWith 1 ∈ keyboardInterruptHandler emailConfigured ∧
    TopAction.exitWith 0 ∉ keyboardInterruptHandler emailConfigured ∧
    TopAction.persistCache ∉ keyboardInterruptHandler emailConfigured := by
  cases emailConfigured <;> decide

/-- The literal parser input of the claim. -/
def sampleDetectorLines : List String :=
  ["Detector Type: AWS", "Path: a.py", "Line Number: 10",
   "Raw result: KEY1", "Raw result: KEY2"]

/-- Claim C4.  On the literal input the parser emits exactly two findings, both
with detector `AWS`, file `a.py` and line `10`, with raw secrets `KEY1` and
`KEY2`; and in general the parser state after any line is exactly the
field-overwrite of the incoming state — emitting a finding performs no
reset, so accumulated fields persist as defaults until overwritten. -/
theorem parser_persists_fields_two_raw_results :
    (∀ keyword url commiter date,
       runDetectorOutput keyword url commiter date sampleDetectorLines =
         [{ keyword := keyword, link := url, commiter := commiter, date := date,
            detector := "AWS", filePath := "a.py", lineNumber := "10", raw := "KEY1" },
          { keyword := keyword, link := url, commiter := commiter, date := date,
            detector := "AWS", filePath := "a.py", lineNumber := "10", raw := "KEY2" }]) ∧
    (∀ keyword url commiter date st rawLine,
       (parseLine keyword url commiter date st rawLine).1 =
         updFields st (pyStrip rawLine)) := by
  constructor
  · intro keyword url commiter date
    rfl
  · intro keyword url commiter date st rawLine
    simp only [parseLine]
    cases labelAfter "Raw result:" (pyStrip rawLine) with
    | none => rfl
    | some raw => by_cases hr : raw = "" <;> simp [hr]

/-- Claim C10.  For every line on which the raw-result regex matches, a finding is
emitted exactly when the captured (stripped) text is non-empty; a line that
is the bare label, possibly surrounded by whitespace, emits nothing and
leaves the accumulated fields unchanged. -/
theorem raw_result_emits_iff_nonempty :
    (∀ keyword url commiter date st rawLine raw,
       labelAfter "Raw result:" (pyStrip rawLine) = some raw →
       ((parseLine keyword url commiter date st rawLine).2 = [] ↔ raw = "")) ∧
    (∀ keyword url commiter date st rawLine,
       pyStrip rawLine = "Raw result:" →
       parseLine keyword url commiter date st rawLine = (st, [])) := by
  constructor
  · intro keyword url commiter date st rawLine raw h
    simp only [parseLine]
    rw [h]
    by_cases hr : raw = "" <;> simp [hr]
  · intro keyword url commiter date st rawLine h
    simp only [parseLine]
    rw [h]
    rfl

theorem raw_result_emits_iff_nonempty_witness :
    ((parseLine "k" "u" "c" "d" { detector := "", file := "", lineNo := "" }
        "Raw result: KEY1").2 = [] ↔ "KEY1" = "") ∧
    parseLine "k" "u" "c" "d" { detector := "", file := "", lineNo := "" }
        " Raw result:  " = ({ detector := "", file := "", lineNo := "" }, []) :=
  ⟨raw_result_emits_iff_nonempty.1 "k" "u" "c" "d"
      { detector := "", file := "", lineNo := "" } "Raw result: KEY1" "KEY1" (by decide),
   raw_result_emits_iff_nonempty.2 "k" "u" "c" "d"
      { detector := "", file := "", lineNo := "" } " Raw result:  " (by decide)⟩

/-! ## Step lemmas for the orchestration loop -/

set_option maxRecDepth 4000 in
theorem step_scannedCache (cfg : Config) (s : OrchState) (c : Candidate) :
    (step cfg s c).1.scannedCache =
      if c.url ∈ s.scannedCache then s.scannedCache
      else c.url :: s.scannedCache := by
  by_cases hdup : c.url ∈ s.scannedCache
  · simp [step, hdup]
  · by_cases hn : jmemStr c.url s.previousRepos = true <;>
    by_cases hp : pyTruthyOptBool c.isPrivate = true <;>
    by_cases hsz : sizeRejected cfg.maxSizeKb c.sizeKb = true <;>
    by_cases hy : yearStale cfg.minYear (get_commit_year c.commitDate) = true <;>
    by_cases hc : c.cloneOk = true <;>
    simp [step, hdup, hn, hp, hsz, hy, hc]

theorem step_cache_self (cfg : Config) (s : OrchState) (c : Candidate) :
    c.url ∈ (step cfg s c).1.scannedCache := by
  rw [step_scannedCache]
  by_cases hdup : c.url ∈ s.scannedCache
  · rw [if_pos hdup]; exact hdup
  · rw [if_neg hdup]; exact List.mem_cons_self _ _

theorem step_cache_mono (cfg : Config) (s : OrchState) (c : Candidate) :
    s.scannedCache ⊆ (step cfg s c).1.scannedCache := by
  rw [step_scannedCache]
  by_cases hdup : c.url ∈ s.scannedCache
  · rw [if_pos hdup]; exact fun x hx => hx
  · rw [if_neg hdup]; exact List.subset_cons_self _ _

theorem step_dup_events (cfg : Config) (s : OrchState) (c : Candidate)
    (h : c.url ∈ s.scannedCache) :
    (step cfg s c).2 = [Event.skipDup c.url] := by
  simp [step, h]

theorem step_events (cfg : Config) (s : OrchState) (c : Candidate) :
    (step cfg s c).2 = [Event.skipDup c.url] ∨
    (step cfg s c).2 = [Event.metaFetch c.url] ∨
    (step cfg s c).2 = [Event.metaFetch c.url, Event.commitFetch c.url] ∨
    (step cfg s c).2 = [Event.metaFetch c.url, Event.commitFetch c.url,
                        Event.cloneCmd c.url] ∨
    (step cfg s c).2 = [Event.metaFetch c.url, Event.commitFetch c.url,
                        Event.cloneCmd c.url, Event.detectCmd c.url] := by
  by_cases hdup : c.url ∈ s.scannedCache
  · exact Or.inl (step_dup_events cfg s c hdup)
  · by_cases hp : pyTruthyOptBool c.isPrivate = true
    · refine Or.inr (Or.inl ?_); simp [step, hdup, hp]
    · by_cases hsz : sizeRejected cfg.maxSizeKb c.sizeKb = true
      · refine Or.inr (Or.inl ?_); simp [step, hdup, hp, hsz]
      · by_cases hy : yearStale cfg.minYear (get_commit_year c.commitDate) = true
        · refine Or.inr (Or.inr (Or.inl ?_)); simp [step, hdup, hp, hsz, hy]
        · by_cases hc : c.cloneOk = true
          · refine Or.inr (Or.inr (Or.inr (Or.inr ?_)))
            simp [step, hdup, hp, hsz, hy, hc]
          · refine Or.inr (Or.inr (Or.inr (Or.inl ?_)))
            simp [step, hdup, hp, hsz, hy, hc]

theorem countDetect_append (url : String) (a b : List Event) :
    countDetect url (a ++ b) = countDetect url a + countDetect url b := by
  induction a with
  | nil => simp [countDetect]
  | cons e es ih => cases e <;> simp [countDetect, ih] <;> omega

theorem countDetect_step_le (cfg : Config) (s : OrchState) (c : Candidate)
    (url : String) : countDetect url (step cfg s c).2 ≤ 1 := by
  rcases step_events cfg s c with h | h | h | h | h <;> rw [h] <;>
    simp [countDetect] <;> split <;> omega

theorem countDetect_step_ne (cfg : Config) (s : OrchState) (c : Candidate)
    (url : String) (h : url ≠ c.url) : countDetect url (step cfg s c).2 = 0 := by
  rcases step_events cfg s c with he | he | he | he | he <;> rw [he] <;>
    simp [countDetect, Ne.symm h]

theorem countDetect_step_dup (cfg : Config) (s : OrchState) (c : Candidate)
    (url : String) (h : c.url ∈ s.scannedCache) :
    countDetect url (step cfg s c).2 = 0 := by
  rw [step_dup_events cfg s c h]
  simp [countDetect]

theorem runAll_detect_zero (cands : List Candidate) :
    ∀ (cfg : Config) (s : OrchState) (url : String), url ∈ s.scannedCache →
      countDetect url (runAll cfg s cands).2 = 0 := by
  induction cands with
  | nil => intro cfg s url _; simp [runAll, countDetect]
  | cons c cs ih =>
      intro cfg s url h
      simp only [runAll]
      rw [countDetect_append]
      have h1 : countDetect url (step cfg s c).2 = 0 := by
        by_cases he : url = c.url
        · subst he; exact countDetect_step_dup cfg s c c.url h
        · exact countDetect_step_ne cfg s c url he
      have h2 : url ∈ (step cfg s c).1.scannedCache := step_cache_mono cfg s c h
      have h3 := ih cfg (step cfg s c).1 url h2
      omega

theorem runAll_detect_le (cands : List Candidate) :
    ∀ (cfg : Config) (s : OrchState) (url : String),
      countDetect url (runAll cfg s cands).2 ≤ 1 := by
  induction cands with
  | nil => intro cfg s url; simp [runAll, countDetect]
  | cons c cs ih =>
      intro cfg s url
      simp only [runAll]
      rw [countDetect_append]
      by_cases he : url = c.url
      · subst he
        by_cases hdup : c.url ∈ s.scannedCache
        · have h1 := countDetect_step_dup cfg s c c.url hdup
          have h2 := runAll_detect_zero cs cfg (step cfg s c).1 c.url
            (step_cache_mono cfg s c hdup)
          omega
        · have h1 := countDetect_step_le cfg s c c.url
          have h2 := runAll_detect_zero cs cfg (step cfg s c).1 c.url
            (step_cache_self cfg s c)
          omega
      · have h1 := countDetect_step_ne cfg s c url he
        have h2 := ih cfg (step cfg s c).1 url
        omega

/-! ## Sample configuration and candidates (used by witnesses) -/

/-- The default configuration: 500 MB ceiling (in KB) and minimum year
2024. -/
def cfg0 : Config := { maxSizeKb := 512000, minYear := 2024 }

def candPrivate : Candidate :=
  { url := "https://github.com/o/p", fullName := "o/p", keyword := "password",
    sizeKb := some 10, isPrivate := some true, commiter := "alice",
    commitDate := "2025-02-03T04:05:06Z", cloneOk := true, detectOutput := some [] }

def candLarge : Candidate :=
  { url := "https://github.com/o/l", fullName := "o/l", keyword := "password",
    sizeKb := some 614400, isPrivate := some false, commiter := "bob",
    commitDate := "2025-02-03T04:05:06Z", cloneOk := true, detectOutput := some [] }

def candStale : Candidate :=
  { url := "https://github.com/o/s", fullName := "o/s", keyword := "password",
    sizeKb := some 10, isPrivate := some false, commiter := "carol",
    commitDate := "2019-05-06T07:08:09Z", cloneOk := true, detectOutput := some [] }

def candUnknownMeta : Candidate :=
  { url := "https://github.com/o/u", fullName := "o/u", keyword := "password",
    sizeKb := none, isPrivate := none, commiter := "dan",
    commitDate := "2025-02-03T04:05:06Z", cloneOk := true, detectOutput := some [] }

/-! ## Claim theorems over the orchestration loop -/

/-- Claim C2.  Within one run (the seen-set starts empty), the detector subprocess
is invoked on a given repository URL at most once, however many keywords
matched it; and a candidate whose URL is already in the in-run seen-set is
dispatched before the metadata fetch: its only event is the duplicate skip,
so it reaches no later pipeline stage. -/
theorem detector_invoked_at_most_once :
    (∀ (prev : List JVal) (cfg : Config) (cands : List Candidate) (url : String),
       countDetect url (runAll cfg (initState prev) cands).2 ≤ 1) ∧
    (∀ (cfg : Config) (s : OrchState) (c : Candidate), c.url ∈ s.scannedCache →
       (step cfg s c).2 = [Event.skipDup c.url]) :=
  ⟨fun prev cfg cands url => runAll_detect_le cands cfg (initState prev) url,
   fun cfg s c h => step_dup_events cfg s c h⟩

theorem detector_invoked_at_most_once_witness :
    countDetect "https://github.com/o/p"
      (runAll cfg0 (initState []) [candPrivate, candPrivate]).2 ≤ 1 ∧
    (step cfg0 { initState [] with scannedCache := ["https://github.com/o/p"] }
        candPrivate).2 = [Event.skipDup "https://github.com/o/p"] :=
  ⟨detector_invoked_at_most_once.1 [] cfg0 [candPrivate, candPrivate]
      "https://github.com/o/p",
   detector_invoked_at_most_once.2 cfg0
      { initState [] with scannedCache := ["https://github.com/o/p"] }
      candPrivate (by decide)⟩

/-- Claim C3, counterexample.  The claim says every admission rejection emits an
audit record into the all-candidates report.  A fresh candidate rejected as
private leaves the report unchanged: the private path `continue`s without
appending anything. -/
theorem private_rejection_emits_no_record :
    pyTruthyOptBool candPrivate.isPrivate = true ∧
    (step cfg0 (initState []) candPrivate).1.publicList = [] :=
  ⟨rfl, rfl⟩

/-- Claim C3, amended.  A candidate rejected as too large or as stale emits one
audit record into the all-candidates report, carrying the metadata resolved
before the rejection (empty author/date for the size rejection, the fetched
author/date for the staleness rejection); a candidate rejected as private
emits no audit record at all. -/
theorem rejection_audit_records (cfg : Config) (s : OrchState) (c : Candidate)
    (hfresh : c.url ∉ s.scannedCache) :
    (pyTruthyOptBool c.isPrivate = true →
       (step cfg s c).1.publicList = s.publicList) ∧
    (pyTruthyOptBool c.isPrivate = false →
       sizeRejected cfg.maxSizeKb c.sizeKb = true →
       (step cfg s c).1.publicList = s.publicList ++
         [{ link := c.url, author := "", date := "", keyword := c.keyword,
            isNew := !(jmemStr c.url s.previousRepos) }]) ∧
    (pyTruthyOptBool c.isPrivate = false →
       sizeRejected cfg.maxSizeKb c.sizeKb = false →
       yearStale cfg.minYear (get_commit_year c.commitDate) = true →
       (step cfg s c).1.publicList = s.publicList ++
         [{ link := c.url, author := c.commiter, date := c.commitDate,
            keyword := c.keyword, isNew := !(jmemStr c.url s.previousRepos) }]) := by
  refine ⟨?_, ?_, ?_⟩
  · intro h1
    by_cases hn : jmemStr c.url s.previousRepos = true <;>
      simp [step, hfresh, h1, hn]
  · intro h1 h2
    by_cases hn : jmemStr c.url s.previousRepos = true <;>
      simp [step, hfresh, h1, h2, hn]
  · intro h1 h2 h3
    by_cases hn : jmemStr c.url s.previousRepos = true <;>
      simp [step, hfresh, h1, h2, h3, hn]

theorem rejection_audit_records_witness :
    (step cfg0 (initState []) candPrivate).1.publicList = [] ∧
    (step cfg0 (initState []) candLarge).1.publicList =
      [{ link := "https://github.com/o/l", author := "", date := "",
         keyword := "password", isNew := true }] ∧
    (step cfg0 (initState []) candStale).1.publicList =
      [{ link := "https://github.com/o/s", author := "carol",
         date := "2019-05-06T07:08:09Z", keyword := "password", isNew := true }] :=
  ⟨(rejection_audit_records cfg0 (initState []) candPrivate (by decide)).1 (by decide),
   (rejection_audit_records cfg0 (initState []) candLarge (by decide)).2.1
      (by decide) (by decide),
   (rejection_audit_records cfg0 (initState []) candStale (by decide)).2.2
      (by decide) (by decide) (by decide)⟩

/-- Claim C5.  Unknown metadata fails open: an unknown size is never rejected by
the size ceiling, unknown visibility is never rejected as private, and a
fresh candidate whose metadata fetch failed entirely (`(none, none)`)
passes both checks and proceeds to the next pipeline stage (the
commit-history fetch). -/
theorem unknown_metadata_fails_open :
    (∀ maxKb : Int, sizeRejected maxKb none = false) ∧
    pyTruthyOptBool none = false ∧
    (∀ (cfg : Config) (s : OrchState) (c : Candidate), c.url ∉ s.scannedCache →
       c.sizeKb = none → c.isPrivate = none →
       Event.commitFetch c.url ∈ (step cfg s c).2) := by
  refine ⟨fun _ => rfl, rfl, ?_⟩
  intro cfg s c hfresh hsz hpriv
  by_cases hy : yearStale cfg.minYear (get_commit_year c.commitDate) = true
  · simp [step, hfresh, hsz, hpriv, pyTruthyOptBool, sizeRejected, hy]
  · by_cases hc : c.cloneOk = true
    · simp [step, hfresh, hsz, hpriv, pyTruthyOptBool, sizeRejected, hy, hc]
    · simp [step, hfresh, hsz, hpriv, pyTruthyOptBool, sizeRejected, hy, hc]

theorem unknown_metadata_fails_open_witness :
    sizeRejected 512000 none = false ∧ pyTruthyOptBool none = false ∧
    Event.commitFetch candUnknownMeta.url ∈
      (step cfg0 (initState []) candUnknownMeta).2 :=
  ⟨unknown_metadata_fails_open.1 512000, unknown_metadata_fails_open.2.1,
   unknown_metadata_fails_open.2.2 cfg0 (initState []) candUnknownMeta
      (by decide) rfl rfl⟩

/-- Claim C7.  A candidate whose visibility resolved to private is terminal at the
privacy check: no clone command and no detector invocation is ever emitted
for it, in any state. -/
theorem private_candidate_never_cloned_or_scanned (cfg : Config)
    (s : OrchState) (c : Candidate) (h : c.isPrivate = some true) :
    (∀ url, Event.cloneCmd url ∉ (step cfg s c).2) ∧
    (∀ url, Event.detectCmd url ∉ (step cfg s c).2) := by
  by_cases hdup : c.url ∈ s.scannedCache
  · constructor <;> intro url <;> simp [step, hdup]
  · constructor <;> intro url <;> simp [step, hdup, h, pyTruthyOptBool]

theorem private_candidate_never_cloned_or_scanned_witness :
    Event.cloneCmd "https://github.com/o/p" ∉
      (step cfg0 (initState []) candPrivate).2 ∧
    Event.detectCmd "https://github.com/o/p" ∉
      (step cfg0 (initState []) candPrivate).2 :=
  ⟨(private_candidate_never_cloned_or_scanned cfg0 (initState []) candPrivate
      rfl).1 "https://github.com/o/p",
   (private_candidate_never_cloned_or_scanned cfg0 (initState []) candPrivate
      rfl).2 "https://github.com/o/p"⟩

end GhScan
